import Mathlib

/-!
Verification of the Atlas terminal dashboard core.

This file gives a shallow embedding of the program's request engine
(`src/github.rs`, `execute_with_retry`) and of its application state
machine (`src/app.rs`) together with the display helper of
`src/models.rs`, and proves or refutes the specification claims about
them.

Modelling conventions:
* `u64`/`usize` fields become `Nat`; the epoch timestamps inspected by
  the rate-limit logic become `Int` (they are `i64` in the source).
* `anyhow::Error` values are modelled as `String` payloads where only
  their display text matters, and as the inductive `RetryError` inside
  the request engine where the classification matters.
* The network is a parameter: `send : Nat → SendResult` gives the
  outcome of the HTTP attempt with the given 0-based attempt index, and
  `now : Nat → Int` gives the epoch second observed during that attempt.
* Sleeping is recorded in an explicit trace (`List Sleep`) and the
  number of issued HTTP attempts in a counter, so that timing claims
  become claims about the trace and the counter.
-/

-- ══════════════════════════════════════════════════════════════════
-- Request engine (src/github.rs)
-- ══════════════════════════════════════════════════════════════════

/-- Model of `MAX_RETRIES` constant of `src/github.rs`. -/
def MAX_RETRIES : Nat := 3

/-- The pieces of a `reqwest::Response` inspected by `execute_with_retry`:
the status code, the two rate-limit headers, and the body text.
`rateLimitRemaining` is the raw header text (`None` when the header is
absent or not valid text); `rateLimitReset` is `some n` when the header
is present and parses as an `i64`, `none` otherwise. -/
structure HttpResponse where
  status : Nat
  rateLimitRemaining : Option String
  rateLimitReset : Option Int
  body : String
deriving DecidableEq

/-- Outcome of one `req.send().await` in `execute_with_retry`:
a response, a transient transport error (`is_timeout || is_connect`),
or any other transport error. -/
inductive SendResult where
  | ok (resp : HttpResponse)
  | errTransient
  | errFatal
deriving DecidableEq

/-- The error classification of `execute_with_retry` (§7 taxonomy).
`transient`, `rateLimited` and `serverError` are the recorded
`last_error` values of the retryable branches; `requestFailed` is the
fatal transport error; `clientError` carries status and body of a fatal
non-2xx response; `exhausted` is the generic fallback built by
`unwrap_or_else` after the loop. -/
inductive RetryError where
  | transient
  | rateLimited
  | serverError (status : Nat) (body : String)
  | requestFailed
  | clientError (status : Nat) (body : String)
  | exhausted (maxRetries : Nat)
deriving DecidableEq

/-- One sleep performed by the retry loop: the exponential backoff
(milliseconds) at the top of an iteration, or the rate-limit wait
(seconds) after a rate-limited response. -/
inductive Sleep where
  | backoff (ms : Nat)
  | rateLimitWait (secs : Nat)
deriving DecidableEq

/-- Predicate for `resp.status() == TOO_MANY_REQUESTS || (resp.status() == FORBIDDEN &&
headers["x-ratelimit-remaining"] == "0")` (src/github.rs:116-122). -/
def isRateLimited (r : HttpResponse) : Bool :=
  r.status == 429 || (r.status == 403 && r.rateLimitRemaining == some "0")

/-- Predicate for `reqwest::StatusCode::is_server_error`: 500..=599. -/
def isServerError (status : Nat) : Bool :=
  500 ≤ status && status ≤ 599

/-- Predicate for `reqwest::StatusCode::is_success`: 200..=299. -/
def isSuccess (status : Nat) : Bool :=
  200 ≤ status && status ≤ 299

/-- The wait computed from `x-ratelimit-reset` (src/github.rs:125-134):
`clamp(reset - now, 1, 60)` seconds when the header is present and
parseable, `5` otherwise. -/
def rateLimitWaitSecs (r : HttpResponse) (now : Int) : Nat :=
  match r.rateLimitReset with
  | some reset => (max 1 (min 60 (reset - now))).toNat
  | none => 5

deriving instance DecidableEq for Except

/-- Result of a run of the retry loop: the returned value, the trace of
sleeps performed, and the number of HTTP attempts actually issued. -/
structure RetryResult where
  outcome : Except RetryError HttpResponse
  sleeps : List Sleep
  calls : Nat
deriving DecidableEq

/-- The `for attempt in 0..MAX_RETRIES` loop of `execute_with_retry`
(src/github.rs:81-167), written as structural recursion on the
remaining fuel (`fuel = MAX_RETRIES - attempt`).  Each iteration first
performs the exponential backoff sleep when `attempt > 0`, then issues
the attempt and classifies its outcome exactly as the source does.
The ghost trace of an iteration is its own sleeps followed by the trace
of the remaining iterations, and `calls` counts the issued attempts. -/
def executeLoop (send : Nat → SendResult) (now : Nat → Int) :
    Nat → Nat → Option RetryError → RetryResult
  | 0, _, lastError =>
      { outcome := Except.error (lastError.getD (RetryError.exhausted MAX_RETRIES)),
        sleeps := [], calls := 0 }
  | fuel + 1, attempt, _lastError =>
      let pre := if 0 < attempt then [Sleep.backoff (500 * 2 ^ (attempt - 1))] else []
      match send attempt with
      | SendResult.errTransient =>
          let r := executeLoop send now fuel (attempt + 1) (some RetryError.transient)
          { outcome := r.outcome, sleeps := pre ++ r.sleeps, calls := r.calls + 1 }
      | SendResult.errFatal =>
          { outcome := Except.error RetryError.requestFailed, sleeps := pre, calls := 1 }
      | SendResult.ok resp =>
          if isRateLimited resp then
            let r := executeLoop send now fuel (attempt + 1) (some RetryError.rateLimited)
            { outcome := r.outcome,
              sleeps :=
                pre ++ [Sleep.rateLimitWait (rateLimitWaitSecs resp (now attempt))] ++ r.sleeps,
              calls := r.calls + 1 }
          else if isServerError resp.status then
            let r := executeLoop send now fuel (attempt + 1)
              (some (RetryError.serverError resp.status resp.body))
            { outcome := r.outcome, sleeps := pre ++ r.sleeps, calls := r.calls + 1 }
          else if isSuccess resp.status then
            { outcome := Except.ok resp, sleeps := pre, calls := 1 }
          else
            { outcome := Except.error (RetryError.clientError resp.status resp.body),
              sleeps := pre, calls := 1 }

/-- Model of `execute_with_retry` (src/github.rs:72-171): run the loop with
`MAX_RETRIES` fuel from attempt 0 with no recorded error. -/
def execute_with_retry (send : Nat → SendResult) (now : Nat → Int) : RetryResult :=
  executeLoop send now MAX_RETRIES 0 none

/-- Retryable classification of an attempt outcome, with the
`last_error` value the loop records for it: transient transport errors,
rate-limited responses, and 5xx responses.  `none` for outcomes on
which the loop returns at once. -/
def retryClass (r : SendResult) : Option RetryError :=
  match r with
  | SendResult.errTransient => some RetryError.transient
  | SendResult.errFatal => none
  | SendResult.ok resp =>
      if isRateLimited resp then some RetryError.rateLimited
      else if isServerError resp.status then some (RetryError.serverError resp.status resp.body)
      else none

-- ══════════════════════════════════════════════════════════════════
-- Domain entities (src/models.rs)
-- ══════════════════════════════════════════════════════════════════

/-- Model of `RepoOwner` (src/models.rs). -/
structure RepoOwner where
  login : String
deriving DecidableEq

/-- Model of `Repository` (src/models.rs).  Only the fields read by the state
machine are modelled; the timestamp/star/flag fields are consumed by
the renderer only. -/
structure Repository where
  full_name : String
  name : String
  owner : RepoOwner
  description : Option String
  html_url : String
  language : Option String
deriving DecidableEq

/-- Model of `WorkflowRun` (src/models.rs).  Timestamp and actor fields, which
are only rendered, are omitted. -/
structure WorkflowRun where
  id : Nat
  name : Option String
  display_title : Option String
  status : Option String
  conclusion : Option String
  run_number : Nat
  html_url : String
deriving DecidableEq

/-- Model of `Job` (src/models.rs).  Step and timestamp fields, which are only
rendered, are omitted. -/
structure Job where
  id : Nat
  run_id : Nat
  name : String
  html_url : Option String
deriving DecidableEq

/-- Model of `WorkflowRunsResponse` (src/models.rs). -/
structure WorkflowRunsResponse where
  total_count : Nat
  workflow_runs : List WorkflowRun
deriving DecidableEq

/-- Model of `JobsResponse` (src/models.rs). -/
structure JobsResponse where
  total_count : Nat
  jobs : List Job
deriving DecidableEq

/-- Model of `WorkflowRun::status_display` (src/models.rs:127-143). -/
def status_display (r : WorkflowRun) : String :=
  match r.conclusion with
  | some "success" => "✓ Success"
  | some "failure" => "✗ Failure"
  | some "cancelled" => "⊘ Cancelled"
  | some "skipped" => "⊘ Skipped"
  | some "timed_out" => "⏱ Timed Out"
  | some other => other
  | none =>
      match r.status with
      | some "queued" => "◯ Queued"
      | some "in_progress" => "● In Progress"
      | some "waiting" => "◎ Waiting"
      | some other => other
      | none => "? Unknown"

-- ══════════════════════════════════════════════════════════════════
-- Application state machine (src/app.rs)
-- ══════════════════════════════════════════════════════════════════

/-- Model of `View` (src/app.rs:11-16). -/
inductive View where
  | RepoList
  | RunsList
  | RunDetail
  | Logs
deriving DecidableEq

/-- Model of `BackgroundResult` (src/app.rs:20-39).  `anyhow::Error` payloads
are modelled by their display text. -/
inductive BackgroundResult where
  | reposFetched (result : Except String (List Repository))
  | runsFetched (result : Except String WorkflowRunsResponse)
  | jobsFetched (run_number : Nat) (result : Except String JobsResponse)
  | logsFetched (job_name : String) (result : Except String String)
  | rerunComplete (run_number : Nat) (result : Except String Unit)
  | cancelComplete (run_number : Nat) (result : Except String Unit)
deriving DecidableEq

/-- A background task dispatched through `tokio::spawn`.  The state
machine only chooses which API call to start and with which captured
arguments; we record that choice. -/
inductive Effect where
  | fetchRepos (per_page : Nat) (page : Nat)
  | fetchRuns (per_page : Nat) (page : Nat)
  | fetchJobs (run_id : Nat) (run_number : Nat)
  | fetchLogs (job_id : Nat) (job_name : String)
  | rerunRun (run_id : Nat) (run_number : Nat)
  | cancelRun (run_id : Nat) (run_number : Nat)
deriving DecidableEq

/-- Model of `App` (src/app.rs:43-76) together with the owner/repo of its
`GitHubClient` (the only client fields the state machine mutates, via
`set_repo`) and the ghost trace `dispatched` of background tasks
spawned so far (in spawn order). -/
structure App where
  view : View
  should_quit : Bool
  repos : List Repository
  repos_selected : Nat
  repo_filter : String
  searching : Bool
  runs : List WorkflowRun
  runs_selected : Nat
  runs_total : Nat
  page : Nat
  per_page : Nat
  current_run : Option WorkflowRun
  jobs : List Job
  jobs_selected : Nat
  log_content : List String
  log_scroll : Nat
  status_message : String
  loading : Bool
  owner : String
  repo : String
  dispatched : List Effect
deriving DecidableEq

/-- Model of `App::new_browser` (src/app.rs:80-111), with the client's
owner/repo both empty as built by `GitHubClient::new_with_token`. -/
def new_browser : App where
  view := View.RepoList
  should_quit := false
  repos := []
  repos_selected := 0
  repo_filter := ""
  searching := false
  runs := []
  runs_selected := 0
  runs_total := 0
  page := 1
  per_page := 20
  current_run := none
  jobs := []
  jobs_selected := 0
  log_content := []
  log_scroll := 0
  status_message := "Loading repositories..."
  loading := true
  owner := ""
  repo := ""
  dispatched := []

/-- Model of `App::new` (src/app.rs:114-120): single-repo mode, starting at the
runs list with the given client owner/repo. -/
def new_single (owner repo : String) : App :=
  { new_browser with
      view := View.RunsList
      status_message := "Loading..."
      owner := owner
      repo := repo }

-- ── String helpers used by the repository filter ───────────────────

/-- Character-list version of `str::starts_with` for a pattern. -/
def charsStart : List Char → List Char → Bool
  | _, [] => true
  | [], _ :: _ => false
  | c :: cs, p :: ps => c == p && charsStart cs ps

/-- Character-list version of `str::contains` for a substring pattern
(matches at some position, the empty pattern always matches). -/
def charsHaveSub : List Char → List Char → Bool
  | [], pat => pat.isEmpty
  | c :: cs, pat => charsStart (c :: cs) pat || charsHaveSub cs pat

/-- Predicate for `haystack.contains(needle)` on strings. -/
def strHasSub (haystack needle : String) : Bool :=
  charsHaveSub haystack.data needle.data

/-- The per-repository predicate of `filtered_repos`
(src/app.rs:132-144), given the already-lowercased query `q`. -/
def repoMatches (q : String) (r : Repository) : Bool :=
  strHasSub r.full_name.toLower q
    || strHasSub (r.description.getD "").toLower q
    || strHasSub (r.language.getD "").toLower q

/-- Model of `App::filtered_repos` (src/app.rs:125-147). -/
def filtered_repos (a : App) : List Repository :=
  if a.repo_filter = "" then a.repos
  else a.repos.filter (repoMatches a.repo_filter.toLower)

-- ── Arithmetic and log-splitting helpers ───────────────────────────

/-- Model of `u64::div_ceil` as used on `runs_total.div_ceil(per_page)`;
agrees with Rust for every non-zero divisor. -/
def natDivCeil (a b : Nat) : Nat :=
  a / b + (if a % b == 0 then 0 else 1)

/-- Model of `str::lines` drops one trailing `\r` per line. -/
def stripCR (l : String) : String :=
  if l.endsWith "\r" then l.dropRight 1 else l

/-- Model of `logs.lines().map(|l| l.to_string()).collect()`
(src/app.rs:380): split on `\n`, ignore a final line terminator,
strip one trailing `\r` per line. -/
def splitLines (s : String) : List String :=
  let parts := s.splitOn "\n"
  let parts := if parts.getLast? = some "" then parts.dropLast else parts
  parts.map stripCR

-- ── Search mode (src/app.rs:151-195) ───────────────────────────────

/-- Model of `App::update_repo_status` (src/app.rs:183-195). -/
def update_repo_status (a : App) : App :=
  { a with
      status_message :=
        if a.repo_filter = "" then
          toString a.repos.length ++ " repositories"
        else
          toString (filtered_repos a).length ++ " / " ++ toString a.repos.length
            ++ " repos matching \"" ++ a.repo_filter ++ "\"" }

/-- Model of `App::start_search` (src/app.rs:151-155). -/
def start_search (a : App) : App :=
  if a.view = View.RepoList then { a with searching := true } else a

/-- Model of `App::stop_search` (src/app.rs:157-159). -/
def stop_search (a : App) : App :=
  { a with searching := false }

/-- Model of `App::search_push` (src/app.rs:161-165). -/
def search_push (a : App) (c : Char) : App :=
  update_repo_status { a with repo_filter := a.repo_filter.push c, repos_selected := 0 }

/-- Model of `App::search_backspace` (src/app.rs:167-171): `String::pop`
removes the last character (no-op on an empty string). -/
def search_backspace (a : App) : App :=
  update_repo_status { a with repo_filter := a.repo_filter.dropRight 1, repos_selected := 0 }

/-- Model of `App::search_clear` (src/app.rs:173-181). -/
def search_clear (a : App) : App :=
  if a.repo_filter = "" then { a with searching := false }
  else update_repo_status { a with repo_filter := "", repos_selected := 0 }

-- ── Background task spawning (src/app.rs:199-297) ──────────────────

/-- Model of `App::spawn_fetch_repos` (src/app.rs:199-211). -/
def spawn_fetch_repos (a : App) : App :=
  { a with
      loading := true
      status_message := "Fetching repositories..."
      dispatched := a.dispatched ++ [Effect.fetchRepos 100 1] }

/-- Model of `App::spawn_fetch_runs` (src/app.rs:213-227). -/
def spawn_fetch_runs (a : App) : App :=
  { a with
      loading := true
      status_message := "Fetching workflow runs..."
      dispatched := a.dispatched ++ [Effect.fetchRuns a.per_page a.page] }

/-- Model of `App::spawn_fetch_jobs` (src/app.rs:229-245). -/
def spawn_fetch_jobs (a : App) : App :=
  match a.current_run with
  | some run =>
      { a with
          loading := true
          status_message := "Fetching jobs for run #" ++ toString run.run_number ++ "..."
          dispatched := a.dispatched ++ [Effect.fetchJobs run.id run.run_number] }
  | none => a

/-- Model of `App::spawn_fetch_logs` (src/app.rs:247-263). -/
def spawn_fetch_logs (a : App) : App :=
  match a.jobs[a.jobs_selected]? with
  | some job =>
      { a with
          loading := true
          status_message := "Fetching logs for " ++ job.name ++ "..."
          dispatched := a.dispatched ++ [Effect.fetchLogs job.id job.name] }
  | none => a

/-- Model of `App::get_selected_run` (src/app.rs:299-305). -/
def get_selected_run (a : App) : Option WorkflowRun :=
  match a.view with
  | View.RunsList => a.runs[a.runs_selected]?
  | View.RunDetail => a.current_run
  | View.Logs => a.current_run
  | View.RepoList => none

/-- Model of `App::spawn_rerun` (src/app.rs:265-280). -/
def spawn_rerun (a : App) : App :=
  match get_selected_run a with
  | some run =>
      { a with
          status_message := "Re-running workflow #" ++ toString run.run_number ++ "..."
          dispatched := a.dispatched ++ [Effect.rerunRun run.id run.run_number] }
  | none => a

/-- Model of `App::spawn_cancel` (src/app.rs:282-297). -/
def spawn_cancel (a : App) : App :=
  match get_selected_run a with
  | some run =>
      { a with
          status_message := "Cancelling workflow #" ++ toString run.run_number ++ "..."
          dispatched := a.dispatched ++ [Effect.cancelRun run.id run.run_number] }
  | none => a

-- ── Completion-message handling (src/app.rs:309-417) ───────────────

/-- Model of `App::handle_background` (src/app.rs:309-417). -/
def handle_background (a : App) (r : BackgroundResult) : App :=
  match r with
  | BackgroundResult.reposFetched (Except.ok repos) =>
      { a with
          repos := repos
          loading := false
          repos_selected := 0
          status_message :=
            toString repos.length ++ " repositories · sorted by last push · / to search" }
  | BackgroundResult.reposFetched (Except.error e) =>
      { a with loading := false, status_message := "Error: " ++ e }
  | BackgroundResult.runsFetched (Except.ok response) =>
      { a with
          runs := response.workflow_runs
          runs_total := response.total_count
          loading := false
          status_message :=
            toString response.total_count ++ " runs total · Page " ++ toString a.page
              ++ "/" ++ toString (natDivCeil response.total_count a.per_page)
              ++ " · " ++ a.owner ++ " " ++ a.repo }
  | BackgroundResult.runsFetched (Except.error e) =>
      { a with loading := false, status_message := "Error: " ++ e }
  | BackgroundResult.jobsFetched run_number (Except.ok response) =>
      { a with
          jobs := response.jobs
          jobs_selected := 0
          loading := false
          status_message :=
            "Run #" ++ toString run_number ++ " · "
              ++ (match a.current_run with
                  | some r =>
                      match r.display_title with
                      | some t => t
                      | none => r.name.getD "Unknown"
                  | none => "Unknown")
              ++ " · " ++ toString response.jobs.length ++ " jobs" }
  | BackgroundResult.jobsFetched _ (Except.error e) =>
      { a with loading := false, status_message := "Error: " ++ e }
  | BackgroundResult.logsFetched job_name (Except.ok logs) =>
      { a with
          log_content := splitLines logs
          log_scroll := 0
          loading := false
          status_message :=
            "Logs: " ++ job_name ++ " · " ++ toString (splitLines logs).length ++ " lines" }
  | BackgroundResult.logsFetched job_name (Except.error e) =>
      { a with
          log_content := ["Error fetching logs: " ++ e]
          loading := false
          status_message := "Failed to load logs for " ++ job_name }
  | BackgroundResult.rerunComplete run_number (Except.ok _) =>
      { a with status_message := "✓ Re-run triggered for #" ++ toString run_number }
  | BackgroundResult.rerunComplete _ (Except.error e) =>
      { a with status_message := "Error: " ++ e }
  | BackgroundResult.cancelComplete run_number (Except.ok _) =>
      { a with status_message := "✓ Cancelled #" ++ toString run_number }
  | BackgroundResult.cancelComplete _ (Except.error e) =>
      { a with status_message := "Error: " ++ e }

-- ── Navigation (src/app.rs:421-583) ────────────────────────────────

/-- Model of `App::move_up` (src/app.rs:421-442). -/
def move_up (a : App) : App :=
  match a.view with
  | View.RepoList =>
      if 0 < a.repos_selected then { a with repos_selected := a.repos_selected - 1 } else a
  | View.RunsList =>
      if 0 < a.runs_selected then { a with runs_selected := a.runs_selected - 1 } else a
  | View.RunDetail =>
      if 0 < a.jobs_selected then { a with jobs_selected := a.jobs_selected - 1 } else a
  | View.Logs =>
      { a with log_scroll := a.log_scroll - 3 }

/-- Model of `App::move_down` (src/app.rs:444-467). -/
def move_down (a : App) : App :=
  match a.view with
  | View.RepoList =>
      let count := (filtered_repos a).length
      if 0 < count ∧ a.repos_selected < count - 1 then
        { a with repos_selected := a.repos_selected + 1 }
      else a
  | View.RunsList =>
      if a.runs ≠ [] ∧ a.runs_selected < a.runs.length - 1 then
        { a with runs_selected := a.runs_selected + 1 }
      else a
  | View.RunDetail =>
      if a.jobs ≠ [] ∧ a.jobs_selected < a.jobs.length - 1 then
        { a with jobs_selected := a.jobs_selected + 1 }
      else a
  | View.Logs =>
      { a with log_scroll := min (a.log_scroll + 3) (a.log_content.length - 10) }

/-- Model of `App::enter` (src/app.rs:469-500). -/
def enter (a : App) : App :=
  match a.view with
  | View.RepoList =>
      match (filtered_repos a)[a.repos_selected]? with
      | some repo =>
          spawn_fetch_runs
            { a with
                owner := repo.owner.login
                repo := repo.name
                view := View.RunsList
                runs := []
                runs_selected := 0
                runs_total := 0
                page := 1
                repo_filter := ""
                searching := false }
      | none => a
  | View.RunsList =>
      match a.runs[a.runs_selected]? with
      | some run =>
          spawn_fetch_jobs { a with current_run := some run, view := View.RunDetail }
      | none => a
  | View.RunDetail =>
      spawn_fetch_logs { a with view := View.Logs }
  | View.Logs => a

/-- Model of `App::back` (src/app.rs:502-529). -/
def back (a : App) : App :=
  match a.view with
  | View.RepoList => { a with should_quit := true }
  | View.RunsList =>
      if a.repos = [] then { a with should_quit := true }
      else
        update_repo_status
          { a with view := View.RepoList, runs := [], runs_selected := 0 }
  | View.RunDetail =>
      { a with view := View.RunsList, current_run := none, jobs := [] }
  | View.Logs =>
      { a with view := View.RunDetail, log_content := [], log_scroll := 0 }

/-- Model of `App::next_page` (src/app.rs:531-540). -/
def next_page (a : App) : App :=
  if a.view = View.RunsList ∧ a.page < natDivCeil a.runs_total a.per_page then
    spawn_fetch_runs { a with page := a.page + 1, runs_selected := 0 }
  else a

/-- Model of `App::prev_page` (src/app.rs:542-548). -/
def prev_page (a : App) : App :=
  if a.view = View.RunsList ∧ 1 < a.page then
    spawn_fetch_runs { a with page := a.page - 1, runs_selected := 0 }
  else a

/-- Model of `App::refresh` (src/app.rs:550-557). -/
def refresh (a : App) : App :=
  match a.view with
  | View.RepoList => spawn_fetch_repos a
  | View.RunsList => spawn_fetch_runs a
  | View.RunDetail => spawn_fetch_jobs a
  | View.Logs => spawn_fetch_logs a

-- ── The selection-index invariant (spec §3) ────────────────────────

/-- Spec §3 invariant: each selection index is within `[0, count)` of
its collection (the filtered repositories for the repo index), or `0`
when the collection is empty. -/
def selInv (a : App) : Prop :=
  (a.repos_selected < (filtered_repos a).length
      ∨ ((filtered_repos a).length = 0 ∧ a.repos_selected = 0))
    ∧ (a.runs_selected < a.runs.length ∨ (a.runs.length = 0 ∧ a.runs_selected = 0))
    ∧ (a.jobs_selected < a.jobs.length ∨ (a.jobs.length = 0 ∧ a.jobs_selected = 0))

instance (a : App) : Decidable (selInv a) := by
  unfold selInv; infer_instance

/-- Completion messages other than a successful runs batch: those are
the completions that do preserve the selection invariant. -/
def msgSafe (r : BackgroundResult) : Prop :=
  match r with
  | BackgroundResult.runsFetched (Except.ok _) => False
  | _ => True

instance (r : BackgroundResult) : Decidable (msgSafe r) := by
  unfold msgSafe; rcases r with ⟨_ | _⟩ | ⟨_ | _⟩ | _ | _ | _ | _ <;> simp <;> infer_instance

-- ══════════════════════════════════════════════════════════════════
-- Concrete fixtures used by witnesses and counterexamples
-- ══════════════════════════════════════════════════════════════════

/-- A plain successful response. -/
def respOk : HttpResponse := ⟨200, none, none, "ok"⟩

/-- A 429 response whose reset header parses to epoch second 100. -/
def resp429 : HttpResponse := ⟨429, none, some 100, ""⟩

/-- A plain 404 response. -/
def resp404 : HttpResponse := ⟨404, none, none, "nf"⟩

/-- A plain 500 response. -/
def resp500 : HttpResponse := ⟨500, none, none, "boom"⟩

/-- First attempt rate-limited, later attempts succeed. -/
def send429then200 : Nat → SendResult :=
  fun n => if n = 0 then SendResult.ok resp429 else SendResult.ok respOk

/-- First attempt fails transiently, the second is rate-limited, later
attempts succeed. -/
def send429at1 : Nat → SendResult :=
  fun n =>
    if n = 0 then SendResult.errTransient
    else if n = 1 then SendResult.ok resp429
    else SendResult.ok respOk

/-- Every attempt yields a 404. -/
def send404 : Nat → SendResult := fun _ => SendResult.ok resp404

/-- Every attempt yields a 500. -/
def send500 : Nat → SendResult := fun _ => SendResult.ok resp500

/-- Clock frozen at epoch second 70. -/
def now70 : Nat → Int := fun _ => 70

/-- Clock frozen at epoch second 0. -/
def now0 : Nat → Int := fun _ => 0

/-- A sample repository. -/
def sampleRepo : Repository :=
  { full_name := "alice/atlas", name := "atlas", owner := ⟨"alice"⟩,
    description := none, html_url := "https://example.invalid/alice/atlas",
    language := some "Rust" }

/-- Sample workflow runs. -/
def run1 : WorkflowRun :=
  { id := 11, name := some "CI", display_title := some "first",
    status := some "completed", conclusion := some "success",
    run_number := 1, html_url := "https://example.invalid/r/1" }

def run2 : WorkflowRun :=
  { id := 12, name := some "CI", display_title := some "second",
    status := some "completed", conclusion := some "failure",
    run_number := 2, html_url := "https://example.invalid/r/2" }

/-- A run still in progress (no conclusion yet). -/
def runInProgress : WorkflowRun :=
  { id := 13, name := some "CI", display_title := some "third",
    status := some "in_progress", conclusion := none,
    run_number := 3, html_url := "https://example.invalid/r/3" }

/-- The failed run with a different lifecycle status. -/
def run2alt : WorkflowRun := { run2 with status := some "in_progress" }

/-- Sample jobs. -/
def job1 : Job :=
  { id := 21, run_id := 11, name := "build", html_url := some "https://example.invalid/j/1" }

def job2 : Job :=
  { id := 22, run_id := 11, name := "test", html_url := some "https://example.invalid/j/2" }

/-- A runs-list state with two loaded runs and the second selected. -/
def runsApp : App :=
  { new_single "alice" "atlas" with
      runs := [run1, run2], runs_selected := 1, runs_total := 2, loading := false }

/-- A run-detail state with two loaded jobs and the second selected. -/
def detailApp : App :=
  { new_single "alice" "atlas" with
      view := View.RunDetail, runs := [run1, run2], runs_selected := 0,
      current_run := some run1, jobs := [job1, job2], jobs_selected := 1,
      loading := false }

/-- A logs state with previously loaded log lines and loading set. -/
def logsApp : App :=
  { detailApp with view := View.Logs, log_content := ["old line"], loading := true }

/-- A runs-list state on page 1 of 3 (45 runs, 20 per page). -/
def pageApp1 : App :=
  { new_single "alice" "atlas" with runs_total := 45, page := 1, loading := false }

/-- The same state on the last page (page 3 of 3). -/
def pageApp3 : App := { pageApp1 with page := 3 }

/-- A repo-list state with one repository and it selected. -/
def repoApp : App :=
  { new_browser with repos := [sampleRepo], loading := false }

/-- A logs state holding a 100000-line log scrolled to line 99980. -/
def bigLogApp : App :=
  { detailApp with
      view := View.Logs, log_content := List.replicate 100000 "line", log_scroll := 99980 }

-- ══════════════════════════════════════════════════════════════════
-- Theorems
-- ══════════════════════════════════════════════════════════════════

-- Sanity checks of the request-engine embedding on concrete runs.

example :
    execute_with_retry (fun _ => SendResult.ok respOk) now0 =
      { outcome := Except.ok respOk, sleeps := [], calls := 1 } := by
  decide

example :
    execute_with_retry (fun _ => SendResult.errTransient) now0 =
      { outcome := Except.error RetryError.transient,
        sleeps := [Sleep.backoff 500, Sleep.backoff 1000], calls := 3 } := by
  decide

example :
    execute_with_retry send429then200 now70 =
      { outcome := Except.ok respOk,
        sleeps := [Sleep.rateLimitWait 30, Sleep.backoff 500], calls := 2 } := by
  decide

example :
    execute_with_retry send404 now0 =
      { outcome := Except.error (RetryError.clientError 404 "nf"), sleeps := [], calls := 1 } := by
  decide

-- ── Request-engine lemmas ──────────────────────────────────────────

/-- The loop issues at most `fuel` HTTP attempts. -/
theorem executeLoop_calls_le (send : Nat → SendResult) (now : Nat → Int) :
    ∀ fuel attempt le, (executeLoop send now fuel attempt le).calls ≤ fuel := by
  intro fuel
  induction fuel with
  | zero => intro attempt le; simp [executeLoop]
  | succ f ih =>
      intro attempt le
      cases hsend : send attempt with
      | errTransient =>
          simp only [executeLoop, hsend]
          have := ih (attempt + 1) (some RetryError.transient)
          omega
      | errFatal => simp [executeLoop, hsend]
      | ok resp =>
          by_cases hrl : isRateLimited resp = true
          · have := ih (attempt + 1) (some RetryError.rateLimited)
            simp only [executeLoop, hsend, hrl, if_true]
            omega
          · by_cases hsrv : isServerError resp.status = true
            · have := ih (attempt + 1) (some (RetryError.serverError resp.status resp.body))
              simp [executeLoop, hsend, hrl, hsrv]
              omega
            · by_cases hsucc : isSuccess resp.status = true
              · simp [executeLoop, hsend, hrl, hsrv, hsucc]
              · simp [executeLoop, hsend, hrl, hsrv, hsucc]

/-- When the loop starts with a recorded error that is not the generic
exhausted error, it never returns the generic exhausted error. -/
theorem executeLoop_some_ne_exhausted (send : Nat → SendResult) (now : Nat → Int) (m : Nat) :
    ∀ fuel attempt e, (∀ k, e ≠ RetryError.exhausted k) →
      (executeLoop send now fuel attempt (some e)).outcome ≠
        Except.error (RetryError.exhausted m) := by
  intro fuel
  induction fuel with
  | zero =>
      intro attempt e he
      simp only [executeLoop, Option.getD_some]
      intro hc
      exact he m (Except.error.inj hc)
  | succ f ih =>
      intro attempt e _he
      cases hsend : send attempt with
      | errTransient =>
          simp only [executeLoop, hsend]
          exact ih (attempt + 1) RetryError.transient (fun k h => RetryError.noConfusion h)
      | errFatal =>
          simp only [executeLoop, hsend]
          intro hc
          exact RetryError.noConfusion (Except.error.inj hc)
      | ok resp =>
          by_cases hrl : isRateLimited resp = true
          · simp only [executeLoop, hsend, hrl, if_true]
            exact ih (attempt + 1) RetryError.rateLimited (fun k h => RetryError.noConfusion h)
          · by_cases hsrv : isServerError resp.status = true
            · simp only [executeLoop, hsend, hrl, hsrv, if_false, if_true]
              exact ih (attempt + 1) (RetryError.serverError resp.status resp.body)
                (fun k h => RetryError.noConfusion h)
            · by_cases hsucc : isSuccess resp.status = true
              · simp [executeLoop, hsend, hrl, hsrv, hsucc]
              · simp only [executeLoop, hsend, hrl, hsrv, hsucc]
                simp

/-- An iteration with `0 < attempt` sleeps the exponential backoff
`500ms × 2^(attempt-1)` first, whatever happens afterwards. -/
theorem executeLoop_sleeps_backoff_head (send : Nat → SendResult) (now : Nat → Int)
    (f attempt : Nat) (le : Option RetryError) (h : 0 < attempt) :
    ∃ t, (executeLoop send now (f + 1) attempt le).sleeps =
      Sleep.backoff (500 * 2 ^ (attempt - 1)) :: t := by
  cases hsend : send attempt with
  | errTransient =>
      exact ⟨(executeLoop send now f (attempt + 1) (some RetryError.transient)).sleeps,
        by simp [executeLoop, hsend, h]⟩
  | errFatal => exact ⟨[], by simp [executeLoop, hsend, h]⟩
  | ok resp =>
      by_cases hrl : isRateLimited resp = true
      · exact ⟨Sleep.rateLimitWait (rateLimitWaitSecs resp (now attempt)) ::
          (executeLoop send now f (attempt + 1) (some RetryError.rateLimited)).sleeps,
          by simp [executeLoop, hsend, h, hrl]⟩
      · by_cases hsrv : isServerError resp.status = true
        · exact ⟨(executeLoop send now f (attempt + 1)
            (some (RetryError.serverError resp.status resp.body))).sleeps,
            by simp [executeLoop, hsend, h, hrl, hsrv]⟩
        · by_cases hsucc : isSuccess resp.status = true
          · exact ⟨[], by simp [executeLoop, hsend, h, hrl, hsrv, hsucc]⟩
          · exact ⟨[], by simp [executeLoop, hsend, h, hrl, hsrv, hsucc]⟩

/-- A retryable attempt outcome makes the loop recurse with the
corresponding recorded error, adding one issued call. -/
theorem executeLoop_retry_step (send : Nat → SendResult) (now : Nat → Int)
    (fuel attempt : Nat) (le : Option RetryError) (e : RetryError)
    (h : retryClass (send attempt) = some e) :
    (executeLoop send now (fuel + 1) attempt le).outcome =
        (executeLoop send now fuel (attempt + 1) (some e)).outcome ∧
      (executeLoop send now (fuel + 1) attempt le).calls =
        (executeLoop send now fuel (attempt + 1) (some e)).calls + 1 := by
  cases hsend : send attempt with
  | errTransient =>
      simp only [retryClass, hsend, Option.some.injEq] at h
      subst h
      simp [executeLoop, hsend]
  | errFatal => simp [retryClass, hsend] at h
  | ok resp =>
      by_cases hrl : isRateLimited resp = true
      · simp only [retryClass, hsend, hrl, if_true, Option.some.injEq] at h
        subst h
        simp [executeLoop, hsend, hrl]
      · by_cases hsrv : isServerError resp.status = true
        · simp [retryClass, hsend, hrl, hsrv] at h
          subst h
          simp [executeLoop, hsend, hrl, hsrv]
        · simp [retryClass, hsend, hrl, hsrv] at h

/-- Base case: exhausted fuel returns the recorded error. -/
theorem executeLoop_zero_some (send : Nat → SendResult) (now : Nat → Int)
    (attempt : Nat) (e : RetryError) :
    executeLoop send now 0 attempt (some e) =
      { outcome := Except.error e, sleeps := [], calls := 0 } := by
  simp [executeLoop]

/-- The recorded retryable error is never the generic exhausted error. -/
theorem retryClass_ne_exhausted (r : SendResult) (e : RetryError)
    (h : retryClass r = some e) : ∀ k, e ≠ RetryError.exhausted k := by
  intro k
  cases r with
  | errTransient =>
      simp [retryClass] at h
      subst h
      exact fun hc => RetryError.noConfusion hc
  | errFatal => simp [retryClass] at h
  | ok resp =>
      by_cases hrl : isRateLimited resp = true
      · simp [retryClass, hrl] at h
        subst h
        exact fun hc => RetryError.noConfusion hc
      · by_cases hsrv : isServerError resp.status = true
        · simp [retryClass, hrl, hsrv] at h
          subst h
          exact fun hc => RetryError.noConfusion hc
        · simp [retryClass, hrl, hsrv] at h

/-- A non-retryable attempt outcome ends the loop at once: one call,
and the outcome is never the generic exhausted error. -/
theorem executeLoop_fatal_step (send : Nat → SendResult) (now : Nat → Int)
    (fuel attempt : Nat) (le : Option RetryError)
    (h : retryClass (send attempt) = none) :
    (executeLoop send now (fuel + 1) attempt le).calls = 1 ∧
      ∀ m, (executeLoop send now (fuel + 1) attempt le).outcome ≠
        Except.error (RetryError.exhausted m) := by
  cases hsend : send attempt with
  | errTransient => simp [retryClass, hsend] at h
  | errFatal =>
      refine ⟨by simp [executeLoop, hsend], fun m hc => ?_⟩
      simp [executeLoop, hsend] at hc
  | ok resp =>
      by_cases hrl : isRateLimited resp = true
      · simp [retryClass, hsend, hrl] at h
      · by_cases hsrv : isServerError resp.status = true
        · simp [retryClass, hsend, hrl, hsrv] at h
        · by_cases hsucc : isSuccess resp.status = true
          · refine ⟨by simp [executeLoop, hsend, hrl, hsrv, hsucc], fun m hc => ?_⟩
            simp [executeLoop, hsend, hrl, hsrv, hsucc] at hc
          · refine ⟨by simp [executeLoop, hsend, hrl, hsrv, hsucc], fun m hc => ?_⟩
            simp [executeLoop, hsend, hrl, hsrv, hsucc] at hc

/-- C1 (counterexample): with a 429 first response whose reset header
is 30 seconds ahead of the clock and a successful second attempt, the
engine sleeps the 30-second rate-limit wait AND the 500ms exponential
backoff before the retry, so the rate-limit sleep does not replace the
backoff sleep as the claim states. -/
theorem claim1_counterexample :
    execute_with_retry send429then200 now70 =
      { outcome := Except.ok respOk,
        sleeps := [Sleep.rateLimitWait 30, Sleep.backoff 500], calls := 2 } ∧
    Sleep.backoff 500 ∈ (execute_with_retry send429then200 now70).sleeps :=
  ⟨by decide, by decide⟩

/-- A rate-limited attempt: the iteration performs its pre-attempt
backoff (when `attempt > 0`), then the rate-limit wait, and continues
with the remaining iterations. -/
theorem executeLoop_rate_limited_sleeps (send : Nat → SendResult) (now : Nat → Int)
    (fuel attempt : Nat) (le : Option RetryError) (resp : HttpResponse)
    (hresp : send attempt = SendResult.ok resp) (hrl : isRateLimited resp = true) :
    (executeLoop send now (fuel + 1) attempt le).sleeps =
      (if 0 < attempt then [Sleep.backoff (500 * 2 ^ (attempt - 1))] else [])
        ++ [Sleep.rateLimitWait (rateLimitWaitSecs resp (now attempt))]
        ++ (executeLoop send now fuel (attempt + 1) (some RetryError.rateLimited)).sleeps := by
  simp only [executeLoop, hresp, hrl, if_true]

/-- C1 (amended): for every rate-limited response seen at any
non-final attempt (0-indexed `attempt`, with at least one further
attempt of fuel left), the engine sleeps `clamp(reset - now, 1, 60)`
seconds (5 when the header is absent or unparseable) and then
additionally performs the exponential backoff sleep of the next retry
cycle, `500ms × 2^(N-1)` for retry `N = attempt + 1`: after the
iteration's own pre-attempt backoff, the next two sleeps of the trace
are exactly the rate-limit wait followed by `500 × 2^attempt`
milliseconds of backoff. -/
theorem claim1_rate_limit_sleep_then_backoff (send : Nat → SendResult) (now : Nat → Int)
    (fuel attempt : Nat) (le : Option RetryError) (resp : HttpResponse)
    (hresp : send attempt = SendResult.ok resp)
    (hrl : isRateLimited resp = true) :
    ((executeLoop send now (fuel + 2) attempt le).sleeps.drop
        (if 0 < attempt then 1 else 0)).take 2 =
      [Sleep.rateLimitWait (rateLimitWaitSecs resp (now attempt)),
       Sleep.backoff (500 * 2 ^ attempt)] := by
  have hstep := executeLoop_rate_limited_sleeps send now (fuel + 1) attempt le resp hresp hrl
  obtain ⟨t, ht⟩ := executeLoop_sleeps_backoff_head send now fuel (attempt + 1)
    (some RetryError.rateLimited) (by omega)
  rw [ht] at hstep
  show ((executeLoop send now (fuel + 1 + 1) attempt le).sleeps.drop
      (if 0 < attempt then 1 else 0)).take 2 = _
  rw [hstep]
  by_cases ha : 0 < attempt
  · rw [if_pos ha, if_pos ha]
    rfl
  · rw [if_neg ha, if_neg ha]
    rfl

/-- C1 witness: the amended theorem applied at a rate-limited second
attempt (attempt index 1), whose following backoff is 1000ms; the full
concrete run sleeps the 500ms backoff for the transient first attempt,
then the 30-second rate-limit wait, then the 1000ms backoff. -/
theorem claim1_witness :
    send429at1 1 = SendResult.ok resp429 ∧ isRateLimited resp429 = true ∧
    ((executeLoop send429at1 now70 (0 + 2) 1 (some RetryError.transient)).sleeps.drop
        (if 0 < 1 then 1 else 0)).take 2 =
      [Sleep.rateLimitWait 30, Sleep.backoff 1000] ∧
    (execute_with_retry send429at1 now70).sleeps =
      [Sleep.backoff 500, Sleep.rateLimitWait 30, Sleep.backoff 1000] := by
  refine ⟨by decide, by decide, ?_, by decide⟩
  exact (claim1_rate_limit_sleep_then_backoff send429at1 now70 0 1
    (some RetryError.transient) resp429 (by decide) (by decide)).trans (by decide)

/-- C4: every call to `execute_with_retry` issues at most 3 HTTP
attempts; the generic exhausted-retries error is never returned (a
failure is always recorded first); and when all three attempts fail
with retryable outcomes (transient network, rate-limited, or 5xx) the
call returns exactly the last recorded failure after exactly 3 HTTP
attempts. -/
theorem claim4_retry_bound_and_last_error (send : Nat → SendResult) (now : Nat → Int)
    (e0 e1 e2 : RetryError) (m : Nat) :
    (execute_with_retry send now).calls ≤ 3 ∧
    (execute_with_retry send now).outcome ≠ Except.error (RetryError.exhausted m) ∧
    (retryClass (send 0) = some e0 → retryClass (send 1) = some e1 →
      retryClass (send 2) = some e2 →
      (execute_with_retry send now).outcome = Except.error e2 ∧
        (execute_with_retry send now).calls = 3) := by
  refine ⟨executeLoop_calls_le send now 3 0 none, ?_, ?_⟩
  · show (executeLoop send now (2 + 1) 0 none).outcome ≠ _
    cases hc : retryClass (send 0) with
    | none => exact (executeLoop_fatal_step send now 2 0 none hc).2 m
    | some e =>
        rw [(executeLoop_retry_step send now 2 0 none e hc).1]
        exact executeLoop_some_ne_exhausted send now m 2 1 e (retryClass_ne_exhausted _ e hc)
  · intro h0 h1 h2
    have s0 := executeLoop_retry_step send now 2 0 none e0 h0
    have s1 := executeLoop_retry_step send now 1 1 (some e0) e1 h1
    have s2 := executeLoop_retry_step send now 0 2 (some e1) e2 h2
    norm_num at s0 s1 s2
    have base := executeLoop_zero_some send now 3 e2
    constructor
    · show (executeLoop send now 3 0 none).outcome = _
      rw [s0.1, s1.1, s2.1, base]
    · show (executeLoop send now 3 0 none).calls = _
      rw [s0.2, s1.2, s2.2, base]

/-- C4 witness: three consecutive 500 responses return the last
recorded server error after exactly 3 attempts. -/
theorem claim4_witness :
    retryClass (send500 0) = some (RetryError.serverError 500 "boom") ∧
    retryClass (send500 1) = some (RetryError.serverError 500 "boom") ∧
    retryClass (send500 2) = some (RetryError.serverError 500 "boom") ∧
    (execute_with_retry send500 now0).outcome =
      Except.error (RetryError.serverError 500 "boom") ∧
    (execute_with_retry send500 now0).calls = 3 := by
  refine ⟨by decide, by decide, by decide, ?_, ?_⟩
  · exact ((claim4_retry_bound_and_last_error send500 now0
      (RetryError.serverError 500 "boom") (RetryError.serverError 500 "boom")
      (RetryError.serverError 500 "boom") 0).2.2 (by decide) (by decide) (by decide)).1
  · exact ((claim4_retry_bound_and_last_error send500 now0
      (RetryError.serverError 500 "boom") (RetryError.serverError 500 "boom")
      (RetryError.serverError 500 "boom") 0).2.2 (by decide) (by decide) (by decide)).2

/-- C5: a response that is neither 2xx, nor rate-limited, nor 5xx makes
the loop return the status and body as an error immediately: one
attempt is issued, the only sleep in the trace is the exponential
backoff that preceded the attempt (none when it is the first attempt),
and no retry follows. -/
theorem claim5_fatal_4xx_immediate (send : Nat → SendResult) (now : Nat → Int)
    (fuel attempt : Nat) (le : Option RetryError) (resp : HttpResponse)
    (h : send attempt = SendResult.ok resp)
    (hrl : isRateLimited resp = false) (hsrv : isServerError resp.status = false)
    (hsucc : isSuccess resp.status = false) :
    executeLoop send now (fuel + 1) attempt le =
      { outcome := Except.error (RetryError.clientError resp.status resp.body),
        sleeps := if 0 < attempt then [Sleep.backoff (500 * 2 ^ (attempt - 1))] else [],
        calls := 1 } := by
  simp [executeLoop, h, hrl, hsrv, hsucc]

/-- C5 witness: a 404 on the first attempt is returned at once with no
sleep and no further attempt. -/
theorem claim5_witness :
    send404 0 = SendResult.ok resp404 ∧ isRateLimited resp404 = false ∧
    isServerError resp404.status = false ∧ isSuccess resp404.status = false ∧
    execute_with_retry send404 now0 =
      { outcome := Except.error (RetryError.clientError 404 "nf"),
        sleeps := [], calls := 1 } := by
  refine ⟨by decide, by decide, by decide, by decide, ?_⟩
  exact (claim5_fatal_4xx_immediate send404 now0 2 0 none resp404 (by decide) (by decide)
    (by decide) (by decide)).trans (by decide)

/-- C2 (amended): error completions for repos, runs and jobs clear the
loading flag, set the status message to `Error: <e>` and leave every
other field unchanged; a logs error completion clears the loading flag,
sets the status to `Failed to load logs for <job>` and additionally
replaces the log lines with the single line `Error fetching logs: <e>`;
rerun and cancel error completions set the status message only, leaving
the loading flag and every other field unchanged. -/
theorem claim2_error_completions (a : App) (e job_name : String) (rn : Nat) :
    handle_background a (BackgroundResult.reposFetched (Except.error e)) =
      { a with loading := false, status_message := "Error: " ++ e } ∧
    handle_background a (BackgroundResult.runsFetched (Except.error e)) =
      { a with loading := false, status_message := "Error: " ++ e } ∧
    handle_background a (BackgroundResult.jobsFetched rn (Except.error e)) =
      { a with loading := false, status_message := "Error: " ++ e } ∧
    handle_background a (BackgroundResult.logsFetched job_name (Except.error e)) =
      { a with
          log_content := ["Error fetching logs: " ++ e]
          loading := false
          status_message := "Failed to load logs for " ++ job_name } ∧
    handle_background a (BackgroundResult.rerunComplete rn (Except.error e)) =
      { a with status_message := "Error: " ++ e } ∧
    handle_background a (BackgroundResult.cancelComplete rn (Except.error e)) =
      { a with status_message := "Error: " ++ e } :=
  ⟨rfl, rfl, rfl, rfl, rfl, rfl⟩

/-- C2 (counterexample): a logs error completion does not leave the
previously loaded log lines unchanged (it overwrites them with an error
line), and a rerun error completion does not clear the loading flag. -/
theorem claim2_counterexample :
    (handle_background logsApp
        (BackgroundResult.logsFetched "build" (Except.error "boom"))).log_content ≠
      logsApp.log_content ∧
    logsApp.loading = true ∧
    (handle_background logsApp
        (BackgroundResult.rerunComplete 7 (Except.error "x"))).loading = true :=
  ⟨by decide, rfl, rfl⟩

/-- C8 (counterexample): the rendered status texts carry a glyph
prefix: a run with no conclusion and status `in_progress` renders
`● In Progress`, not `In Progress`, and a concluded `failure` run
renders `✗ Failure`, not `Failure`. -/
theorem claim8_counterexample :
    status_display runInProgress = "● In Progress" ∧
    status_display runInProgress ≠ "In Progress" ∧
    status_display run2 = "✗ Failure" ∧
    status_display run2 ≠ "Failure" :=
  ⟨rfl, by decide, rfl, by decide⟩

/-- C8 (amended): the status text is derived from the conclusion
whenever one is present (two runs with the same present conclusion
render identically, whatever their statuses), and from the lifecycle
status only when the conclusion is `None`; a run with no conclusion and
status `in_progress` renders `● In Progress`, and a concluded `failure`
run renders `✗ Failure` regardless of its status. -/
theorem claim8_status_display (r r' : WorkflowRun) :
    (r.conclusion = r'.conclusion → r.conclusion ≠ none →
      status_display r = status_display r') ∧
    (r.conclusion = none → r.status = some "in_progress" →
      status_display r = "● In Progress") ∧
    (r.conclusion = some "failure" → status_display r = "✗ Failure") := by
  refine ⟨?_, ?_, ?_⟩
  · intro hc hne
    unfold status_display
    rw [hc]
    rcases hcon : r'.conclusion with _ | c
    · exact absurd (hc.trans hcon) hne
    · split <;> simp_all
  · intro h1 h2
    unfold status_display
    rw [h1, h2]
    rfl
  · intro h
    unfold status_display
    rw [h]
    rfl

/-- C8 witness: the amended theorem applied to the concrete failed and
in-progress runs. -/
theorem claim8_witness :
    run2.conclusion = run2alt.conclusion ∧ run2.conclusion ≠ none ∧
    runInProgress.conclusion = none ∧ runInProgress.status = some "in_progress" ∧
    run2.conclusion = some "failure" ∧
    status_display run2 = status_display run2alt ∧
    status_display runInProgress = "● In Progress" ∧
    status_display run2 = "✗ Failure" := by
  refine ⟨rfl, by decide, rfl, rfl, rfl, ?_, ?_, ?_⟩
  · exact (claim8_status_display run2 run2alt).1 rfl (by decide)
  · exact (claim8_status_display runInProgress runInProgress).2.1 rfl rfl
  · exact (claim8_status_display run2 run2alt).2.2 rfl

/-- C10: in the RepoList view the rerun and cancel operations are
complete no-ops: no run is selected, no background task is dispatched,
and the state (the ghost dispatch trace included) is unchanged. -/
theorem claim10_rerun_cancel_noop (a : App) (hv : a.view = View.RepoList) :
    get_selected_run a = none ∧ spawn_rerun a = a ∧ spawn_cancel a = a := by
  have h : get_selected_run a = none := by simp [get_selected_run, hv]
  exact ⟨h, by simp [spawn_rerun, h], by simp [spawn_cancel, h]⟩

/-- C10 witness: the theorem applied to the initial browser state. -/
theorem claim10_witness :
    new_browser.view = View.RepoList ∧ get_selected_run new_browser = none ∧
    spawn_rerun new_browser = new_browser ∧ spawn_cancel new_browser = new_browser := by
  have h := claim10_rerun_cancel_noop new_browser rfl
  exact ⟨rfl, h.1, h.2.1, h.2.2⟩

/-- C7: in the Logs view, moving up subtracts 3 with saturating (Nat)
subtraction, moving down adds 3 clamped to `line_count - 10` (Nat
subtraction, i.e. `max 0 (line_count - visible_window)` with a 10-line
window), the offset after moving down never exceeds the line count for
any prior offset, and moving up never raises an in-range offset out of
range. -/
theorem claim7_log_scroll (a : App) (hv : a.view = View.Logs) :
    (move_up a).log_scroll = a.log_scroll - 3 ∧
    (move_down a).log_scroll = min (a.log_scroll + 3) (a.log_content.length - 10) ∧
    (move_down a).log_scroll ≤ a.log_content.length ∧
    (a.log_scroll ≤ a.log_content.length →
      (move_up a).log_scroll ≤ a.log_content.length) := by
  have h1 : (move_up a).log_scroll = a.log_scroll - 3 := by simp [move_up, hv]
  have h2 : (move_down a).log_scroll =
      min (a.log_scroll + 3) (a.log_content.length - 10) := by simp [move_down, hv]
  refine ⟨h1, h2, ?_, ?_⟩
  · rw [h2]
    exact le_trans (min_le_right _ _) (Nat.sub_le _ _)
  · intro h
    rw [h1]
    omega

/-- C7 witness: the theorem applied to a 100000-line log scrolled to
line 99980. -/
theorem claim7_witness :
    bigLogApp.view = View.Logs ∧ bigLogApp.log_content.length = 100000 ∧
    bigLogApp.log_scroll = 99980 ∧
    ((move_up bigLogApp).log_scroll = bigLogApp.log_scroll - 3 ∧
      (move_down bigLogApp).log_scroll =
        min (bigLogApp.log_scroll + 3) (bigLogApp.log_content.length - 10) ∧
      (move_down bigLogApp).log_scroll ≤ bigLogApp.log_content.length ∧
      (bigLogApp.log_scroll ≤ bigLogApp.log_content.length →
        (move_up bigLogApp).log_scroll ≤ bigLogApp.log_content.length)) := by
  refine ⟨rfl, ?_, rfl, claim7_log_scroll bigLogApp rfl⟩
  show (List.replicate 100000 "line").length = 100000
  exact List.length_replicate 100000 "line"

/-- C9: `enter` in the RepoList view with a selected project fixes the
client's owner/repo, clears the run state, resets the page to 1, moves
to the RunsList view, dispatches a runs fetch, clears the repo filter
and exits search-input mode; with no selected project it leaves the
state entirely unchanged. -/
theorem claim9_enter_repo_list (a : App) (repo : Repository)
    (hv : a.view = View.RepoList) :
    ((filtered_repos a)[a.repos_selected]? = none → enter a = a) ∧
    ((filtered_repos a)[a.repos_selected]? = some repo →
      enter a =
        spawn_fetch_runs
          { a with
              owner := repo.owner.login, repo := repo.name, view := View.RunsList,
              runs := [], runs_selected := 0, runs_total := 0, page := 1,
              repo_filter := "", searching := false } ∧
      (enter a).repo_filter = "" ∧ (enter a).searching = false ∧
      (enter a).page = 1 ∧ (enter a).view = View.RunsList ∧
      (enter a).owner = repo.owner.login ∧ (enter a).repo = repo.name ∧
      (enter a).runs = [] ∧ (enter a).runs_selected = 0 ∧ (enter a).runs_total = 0 ∧
      (enter a).dispatched = a.dispatched ++ [Effect.fetchRuns a.per_page 1]) := by
  constructor
  · intro h
    simp [enter, hv, h]
  · intro h
    have he : enter a =
        spawn_fetch_runs
          { a with
              owner := repo.owner.login, repo := repo.name, view := View.RunsList,
              runs := [], runs_selected := 0, runs_total := 0, page := 1,
              repo_filter := "", searching := false } := by
      simp [enter, hv, h]
    refine ⟨he, ?_, ?_, ?_, ?_, ?_, ?_, ?_, ?_, ?_, ?_⟩ <;> rw [he] <;> rfl

/-- C9 witness: the theorem applied to a browser state with one
repository selected. -/
theorem claim9_witness :
    repoApp.view = View.RepoList ∧
    (filtered_repos repoApp)[repoApp.repos_selected]? = some sampleRepo ∧
    enter repoApp =
      spawn_fetch_runs
        { repoApp with
            owner := sampleRepo.owner.login, repo := sampleRepo.name,
            view := View.RunsList, runs := [], runs_selected := 0, runs_total := 0,
            page := 1, repo_filter := "", searching := false } ∧
    (enter repoApp).dispatched =
      repoApp.dispatched ++ [Effect.fetchRuns repoApp.per_page 1] := by
  have h := (claim9_enter_repo_list repoApp sampleRepo rfl).2 (by decide)
  exact ⟨rfl, by decide, h.1, h.2.2.2.2.2.2.2.2.2.2⟩

/-- C6 (counterexample): in the initial single-repo RunsList state
(`runs_total = 0`, `page = 1`) `next_page` is a no-op although `page`
does not equal `ceil(runs_total / per_page) = 0`, so "no-op exactly
when page equals the page count" fails. -/
theorem claim6_counterexample :
    (new_single "alice" "atlas").view = View.RunsList ∧
    next_page (new_single "alice" "atlas") = new_single "alice" "atlas" ∧
    (new_single "alice" "atlas").page ≠
      natDivCeil (new_single "alice" "atlas").runs_total
        (new_single "alice" "atlas").per_page :=
  ⟨rfl, by decide, by decide⟩

/-- C6 (amended): in the RunsList view with `page ≥ 1`, `next_page` is
a no-op exactly when `page ≥ ceil(runs_total / per_page)` (not only at
equality: the page count can be 0), and `prev_page` is a no-op exactly
when `page = 1`; an effective change moves the page by one, resets the
run selection to 0 and dispatches a runs fetch; with 45 runs and page
size 20 there are 3 pages, `next_page` from page 1 reaches page 2 and
dispatches a fetch, and `next_page` from page 3 is a no-op; outside the
RunsList view both operations are no-ops. -/
theorem claim6_pagination (a : App) :
    (a.view = View.RunsList → 1 ≤ a.page →
      ((next_page a = a ↔ natDivCeil a.runs_total a.per_page ≤ a.page) ∧
       (prev_page a = a ↔ a.page = 1) ∧
       (a.page < natDivCeil a.runs_total a.per_page →
         (next_page a).page = a.page + 1 ∧ (next_page a).runs_selected = 0 ∧
         (next_page a).dispatched =
           a.dispatched ++ [Effect.fetchRuns a.per_page (a.page + 1)]) ∧
       (1 < a.page →
         (prev_page a).page = a.page - 1 ∧ (prev_page a).runs_selected = 0 ∧
         (prev_page a).dispatched =
           a.dispatched ++ [Effect.fetchRuns a.per_page (a.page - 1)]))) ∧
    (a.view ≠ View.RunsList → next_page a = a ∧ prev_page a = a) ∧
    natDivCeil 45 20 = 3 ∧
    (next_page pageApp1).page = 2 ∧
    (next_page pageApp1).dispatched = pageApp1.dispatched ++ [Effect.fetchRuns 20 2] ∧
    next_page pageApp3 = pageApp3 := by
  refine ⟨?_, ?_, by decide, by decide, by decide, by decide⟩
  · intro hv hp
    refine ⟨?_, ?_, ?_, ?_⟩
    · constructor
      · intro hnoop
        by_contra hlt
        push_neg at hlt
        have hpage : (next_page a).page = a.page + 1 := by
          simp [next_page, hv, hlt, spawn_fetch_runs]
        rw [hnoop] at hpage
        omega
      · intro hge
        have : ¬ a.page < natDivCeil a.runs_total a.per_page := by omega
        simp [next_page, this]
    · constructor
      · intro hnoop
        by_contra hne
        have h2 : 1 < a.page := by omega
        have hpage : (prev_page a).page = a.page - 1 := by
          simp [prev_page, hv, h2, spawn_fetch_runs]
        rw [hnoop] at hpage
        omega
      · intro h1
        have : ¬ 1 < a.page := by omega
        simp [prev_page, this]
    · intro hlt
      refine ⟨?_, ?_, ?_⟩ <;> simp [next_page, hv, hlt, spawn_fetch_runs]
    · intro h1
      refine ⟨?_, ?_, ?_⟩ <;> simp [prev_page, hv, h1, spawn_fetch_runs]
  · intro hv
    constructor
    · simp [next_page, hv]
    · simp [prev_page, hv]

/-- C6 witness: the amended theorem applied to the page-1-of-3 state. -/
theorem claim6_witness :
    pageApp1.view = View.RunsList ∧ 1 ≤ pageApp1.page ∧
    (next_page pageApp1 = pageApp1 ↔
      natDivCeil pageApp1.runs_total pageApp1.per_page ≤ pageApp1.page) ∧
    (prev_page pageApp1 = pageApp1 ↔ pageApp1.page = 1) := by
  have h := (claim6_pagination pageApp1).1 rfl (by decide)
  exact ⟨rfl, by decide, h.1, h.2.1⟩

-- ── Selection-invariant lemmas (C3) ────────────────────────────────

/-- The filtered repository list is never longer than the full list. -/
theorem filtered_le (a : App) : (filtered_repos a).length ≤ a.repos.length := by
  unfold filtered_repos
  split
  · exact le_rfl
  · exact List.length_filter_le _ _

/-- A selection reset to 0 satisfies its bound for any collection. -/
theorem zero_sel (n : Nat) : 0 < n ∨ (n = 0 ∧ (0 : Nat) = 0) := by omega

/-- The spawn helpers only touch `loading`, `status_message` and the
dispatch trace, so they preserve the selection invariant. -/
theorem selInv_spawn_fetch_repos (x : App) (hx : selInv x) : selInv (spawn_fetch_repos x) := hx

theorem selInv_spawn_fetch_runs (x : App) (hx : selInv x) : selInv (spawn_fetch_runs x) := hx

theorem selInv_spawn_fetch_jobs (x : App) (hx : selInv x) : selInv (spawn_fetch_jobs x) := by
  unfold spawn_fetch_jobs
  cases x.current_run with
  | some run => exact hx
  | none => exact hx

theorem selInv_spawn_fetch_logs (x : App) (hx : selInv x) : selInv (spawn_fetch_logs x) := by
  unfold spawn_fetch_logs
  cases x.jobs[x.jobs_selected]? with
  | some job => exact hx
  | none => exact hx

/-- Operation `move_up` preserves the selection invariant. -/
theorem selInv_move_up (a : App) (h : selInv a) : selInv (move_up a) := by
  obtain ⟨h1, h2, h3⟩ := h
  cases hv : a.view with
  | RepoList =>
      have he : move_up a =
          if 0 < a.repos_selected then { a with repos_selected := a.repos_selected - 1 }
          else a := by simp [move_up, hv]
      rw [he]
      split
      next hlt =>
        refine ⟨?_, h2, h3⟩
        show a.repos_selected - 1 < (filtered_repos a).length ∨
          ((filtered_repos a).length = 0 ∧ a.repos_selected - 1 = 0)
        omega
      next => exact ⟨h1, h2, h3⟩
  | RunsList =>
      have he : move_up a =
          if 0 < a.runs_selected then { a with runs_selected := a.runs_selected - 1 }
          else a := by simp [move_up, hv]
      rw [he]
      split
      next hlt =>
        refine ⟨h1, ?_, h3⟩
        show a.runs_selected - 1 < a.runs.length ∨
          (a.runs.length = 0 ∧ a.runs_selected - 1 = 0)
        omega
      next => exact ⟨h1, h2, h3⟩
  | RunDetail =>
      have he : move_up a =
          if 0 < a.jobs_selected then { a with jobs_selected := a.jobs_selected - 1 }
          else a := by simp [move_up, hv]
      rw [he]
      split
      next hlt =>
        refine ⟨h1, h2, ?_⟩
        show a.jobs_selected - 1 < a.jobs.length ∨
          (a.jobs.length = 0 ∧ a.jobs_selected - 1 = 0)
        omega
      next => exact ⟨h1, h2, h3⟩
  | Logs =>
      have he : move_up a = { a with log_scroll := a.log_scroll - 3 } := by simp [move_up, hv]
      rw [he]
      exact ⟨h1, h2, h3⟩

/-- Operation `move_down` preserves the selection invariant. -/
theorem selInv_move_down (a : App) (h : selInv a) : selInv (move_down a) := by
  obtain ⟨h1, h2, h3⟩ := h
  cases hv : a.view with
  | RepoList =>
      have he : move_down a =
          if 0 < (filtered_repos a).length ∧
              a.repos_selected < (filtered_repos a).length - 1 then
            { a with repos_selected := a.repos_selected + 1 }
          else a := by simp [move_down, hv]
      rw [he]
      split
      next hc =>
        obtain ⟨hc1, hc2⟩ := hc
        refine ⟨?_, h2, h3⟩
        show a.repos_selected + 1 < (filtered_repos a).length ∨
          ((filtered_repos a).length = 0 ∧ a.repos_selected + 1 = 0)
        omega
      next => exact ⟨h1, h2, h3⟩
  | RunsList =>
      have he : move_down a =
          if a.runs ≠ [] ∧ a.runs_selected < a.runs.length - 1 then
            { a with runs_selected := a.runs_selected + 1 }
          else a := by simp [move_down, hv]
      rw [he]
      split
      next hc =>
        obtain ⟨hc1, hc2⟩ := hc
        have hlen : 0 < a.runs.length := List.length_pos.mpr hc1
        refine ⟨h1, ?_, h3⟩
        show a.runs_selected + 1 < a.runs.length ∨
          (a.runs.length = 0 ∧ a.runs_selected + 1 = 0)
        omega
      next => exact ⟨h1, h2, h3⟩
  | RunDetail =>
      have he : move_down a =
          if a.jobs ≠ [] ∧ a.jobs_selected < a.jobs.length - 1 then
            { a with jobs_selected := a.jobs_selected + 1 }
          else a := by simp [move_down, hv]
      rw [he]
      split
      next hc =>
        obtain ⟨hc1, hc2⟩ := hc
        have hlen : 0 < a.jobs.length := List.length_pos.mpr hc1
        refine ⟨h1, h2, ?_⟩
        show a.jobs_selected + 1 < a.jobs.length ∨
          (a.jobs.length = 0 ∧ a.jobs_selected + 1 = 0)
        omega
      next => exact ⟨h1, h2, h3⟩
  | Logs =>
      have he : move_down a =
          { a with log_scroll := min (a.log_scroll + 3) (a.log_content.length - 10) } := by
        simp [move_down, hv]
      rw [he]
      exact ⟨h1, h2, h3⟩

/-- Operation `enter` preserves the selection invariant. -/
theorem selInv_enter (a : App) (h : selInv a) : selInv (enter a) := by
  obtain ⟨h1, h2, h3⟩ := h
  cases hv : a.view with
  | RepoList =>
      cases hr : (filtered_repos a)[a.repos_selected]? with
      | none =>
          have he : enter a = a := by simp [enter, hv, hr]
          rw [he]
          exact ⟨h1, h2, h3⟩
      | some repo =>
          have hlt : a.repos_selected < (filtered_repos a).length := by
            have := List.getElem?_eq_some.mp hr
            exact this.1
          have he : enter a =
              spawn_fetch_runs
                { a with
                    owner := repo.owner.login, repo := repo.name, view := View.RunsList,
                    runs := [], runs_selected := 0, runs_total := 0, page := 1,
                    repo_filter := "", searching := false } := by
            simp [enter, hv, hr]
          rw [he]
          refine ⟨?_, Or.inr ⟨rfl, rfl⟩, h3⟩
          show a.repos_selected < a.repos.length ∨
            (a.repos.length = 0 ∧ a.repos_selected = 0)
          exact Or.inl (lt_of_lt_of_le hlt (filtered_le a))
  | RunsList =>
      cases hr : a.runs[a.runs_selected]? with
      | none =>
          have he : enter a = a := by simp [enter, hv, hr]
          rw [he]
          exact ⟨h1, h2, h3⟩
      | some run =>
          have he : enter a =
              spawn_fetch_jobs { a with current_run := some run, view := View.RunDetail } := by
            simp [enter, hv, hr]
          rw [he]
          exact ⟨h1, h2, h3⟩
  | RunDetail =>
      have he : enter a = spawn_fetch_logs { a with view := View.Logs } := by
        simp [enter, hv]
      rw [he]
      exact selInv_spawn_fetch_logs _ ⟨h1, h2, h3⟩
  | Logs =>
      have he : enter a = a := by simp [enter, hv]
      rw [he]
      exact ⟨h1, h2, h3⟩

/-- Operation `back` preserves the selection invariant except from RunDetail. -/
theorem selInv_back (a : App) (h : selInv a) (hv : a.view ≠ View.RunDetail) :
    selInv (back a) := by
  obtain ⟨h1, h2, h3⟩ := h
  cases hview : a.view with
  | RepoList =>
      have he : back a = { a with should_quit := true } := by simp [back, hview]
      rw [he]
      exact ⟨h1, h2, h3⟩
  | RunsList =>
      have he : back a =
          if a.repos = [] then { a with should_quit := true }
          else
            update_repo_status
              { a with view := View.RepoList, runs := [], runs_selected := 0 } := by
        simp [back, hview]
      rw [he]
      split
      · exact ⟨h1, h2, h3⟩
      · exact ⟨h1, Or.inr ⟨rfl, rfl⟩, h3⟩
  | RunDetail => exact absurd hview hv
  | Logs =>
      have he : back a =
          { a with view := View.RunDetail, log_content := [], log_scroll := 0 } := by
        simp [back, hview]
      rw [he]
      exact ⟨h1, h2, h3⟩

/-- Operation `next_page` preserves the selection invariant. -/
theorem selInv_next_page (a : App) (h : selInv a) : selInv (next_page a) := by
  obtain ⟨h1, h2, h3⟩ := h
  unfold next_page
  split
  · exact ⟨h1, zero_sel _, h3⟩
  · exact ⟨h1, h2, h3⟩

/-- Operation `prev_page` preserves the selection invariant. -/
theorem selInv_prev_page (a : App) (h : selInv a) : selInv (prev_page a) := by
  obtain ⟨h1, h2, h3⟩ := h
  unfold prev_page
  split
  · exact ⟨h1, zero_sel _, h3⟩
  · exact ⟨h1, h2, h3⟩

/-- Operation `refresh` preserves the selection invariant. -/
theorem selInv_refresh (a : App) (h : selInv a) : selInv (refresh a) := by
  cases hv : a.view with
  | RepoList =>
      have he : refresh a = spawn_fetch_repos a := by simp [refresh, hv]
      rw [he]; exact selInv_spawn_fetch_repos a h
  | RunsList =>
      have he : refresh a = spawn_fetch_runs a := by simp [refresh, hv]
      rw [he]; exact selInv_spawn_fetch_runs a h
  | RunDetail =>
      have he : refresh a = spawn_fetch_jobs a := by simp [refresh, hv]
      rw [he]; exact selInv_spawn_fetch_jobs a h
  | Logs =>
      have he : refresh a = spawn_fetch_logs a := by simp [refresh, hv]
      rw [he]; exact selInv_spawn_fetch_logs a h

/-- The search-mode operations preserve the selection invariant. -/
theorem selInv_start_search (a : App) (h : selInv a) : selInv (start_search a) := by
  unfold start_search
  split
  · exact h
  · exact h

theorem selInv_stop_search (a : App) (h : selInv a) : selInv (stop_search a) := h

theorem selInv_search_push (a : App) (c : Char) (h : selInv a) :
    selInv (search_push a c) := by
  obtain ⟨h1, h2, h3⟩ := h
  exact ⟨zero_sel _, h2, h3⟩

theorem selInv_search_backspace (a : App) (h : selInv a) :
    selInv (search_backspace a) := by
  obtain ⟨h1, h2, h3⟩ := h
  exact ⟨zero_sel _, h2, h3⟩

theorem selInv_search_clear (a : App) (h : selInv a) : selInv (search_clear a) := by
  obtain ⟨h1, h2, h3⟩ := h
  unfold search_clear
  split
  · exact ⟨h1, h2, h3⟩
  · exact ⟨zero_sel _, h2, h3⟩

/-- Every completion message except a successful runs batch preserves
the selection invariant. -/
theorem selInv_handle_background (a : App) (msg : BackgroundResult)
    (h : selInv a) (hmsg : msgSafe msg) : selInv (handle_background a msg) := by
  obtain ⟨h1, h2, h3⟩ := h
  cases msg with
  | reposFetched res =>
      cases res with
      | ok repos => exact ⟨zero_sel _, h2, h3⟩
      | error e => exact ⟨h1, h2, h3⟩
  | runsFetched res =>
      cases res with
      | ok response => exact hmsg.elim
      | error e => exact ⟨h1, h2, h3⟩
  | jobsFetched rn res =>
      cases res with
      | ok response => exact ⟨h1, h2, zero_sel _⟩
      | error e => exact ⟨h1, h2, h3⟩
  | logsFetched jn res =>
      cases res with
      | ok logs => exact ⟨h1, h2, h3⟩
      | error e => exact ⟨h1, h2, h3⟩
  | rerunComplete rn res =>
      cases res with
      | ok u => exact ⟨h1, h2, h3⟩
      | error e => exact ⟨h1, h2, h3⟩
  | cancelComplete rn res =>
      cases res with
      | ok u => exact ⟨h1, h2, h3⟩
      | error e => exact ⟨h1, h2, h3⟩

/-- C3 (counterexample): a successful runs completion replaces the runs
collection without resetting or clamping `runs_selected` (a refresh
that returns fewer runs leaves the selection out of bounds), and `back`
from RunDetail empties the jobs collection without resetting
`jobs_selected`; in both cases the selection invariant held before the
operation and fails after it. -/
theorem claim3_counterexample :
    selInv runsApp ∧
    ¬ selInv (handle_background runsApp
        (BackgroundResult.runsFetched (Except.ok ⟨1, [run1]⟩))) ∧
    selInv detailApp ∧ ¬ selInv (back detailApp) :=
  ⟨by decide, by decide, by decide, by decide⟩

/-- C3 (amended): every navigation, pagination, filtering and
completion-message operation keeps each selection index within
`[0, count)` of its collection (or at 0 when the collection is empty),
EXCEPT that a successful runs completion leaves `runs_selected`
unchanged against the replaced collection, and `back` from RunDetail
clears the jobs collection while leaving `jobs_selected` unchanged. -/
theorem claim3_selection_invariant (a : App) (msg : BackgroundResult) (c : Char)
    (h : selInv a) (hmsg : msgSafe msg) :
    selInv (move_up a) ∧ selInv (move_down a) ∧ selInv (enter a) ∧
    selInv (next_page a) ∧ selInv (prev_page a) ∧ selInv (refresh a) ∧
    selInv (start_search a) ∧ selInv (stop_search a) ∧ selInv (search_push a c) ∧
    selInv (search_backspace a) ∧ selInv (search_clear a) ∧
    (a.view ≠ View.RunDetail → selInv (back a)) ∧
    selInv (handle_background a msg) :=
  ⟨selInv_move_up a h, selInv_move_down a h, selInv_enter a h,
   selInv_next_page a h, selInv_prev_page a h, selInv_refresh a h,
   selInv_start_search a h, selInv_stop_search a h, selInv_search_push a c h,
   selInv_search_backspace a h, selInv_search_clear a h,
   fun hv => selInv_back a h hv, selInv_handle_background a msg h hmsg⟩

/-- C3 witness: the amended theorem applied to the two-run list state
with an error completion message. -/
theorem claim3_witness :
    selInv runsApp ∧ msgSafe (BackgroundResult.reposFetched (Except.ok [])) ∧
    (selInv (move_up runsApp) ∧ selInv (move_down runsApp) ∧ selInv (enter runsApp) ∧
      selInv (next_page runsApp) ∧ selInv (prev_page runsApp) ∧ selInv (refresh runsApp) ∧
      selInv (start_search runsApp) ∧ selInv (stop_search runsApp) ∧
      selInv (search_push runsApp 'x') ∧ selInv (search_backspace runsApp) ∧
      selInv (search_clear runsApp) ∧
      (runsApp.view ≠ View.RunDetail → selInv (back runsApp)) ∧
      selInv (handle_background runsApp (BackgroundResult.reposFetched (Except.ok [])))) :=
  ⟨by decide, by decide,
   claim3_selection_invariant runsApp (BackgroundResult.reposFetched (Except.ok [])) 'x'
     (by decide) (by decide)⟩
